import Mathlib

/-!
Verification of the Cloud-Notes backend (src/backend/app.py) against its
specification. The Flask request handlers are shallowly embedded as Lean
functions over an explicit table state; the MySQL store semantics relevant
to the claims (parameterized UPDATE/SELECT, `LIKE` pattern matching, the
`ON UPDATE CURRENT_TIMESTAMP` column attribute of `updated_at`, and the
unspecified order of rows tied under `ORDER BY created_at DESC`) are
embedded explicitly. Timestamps are modelled as naturals; the current
clock value is passed to each handler as `now`.
-/

namespace CloudNotes

/-- Text is modelled as a list of characters (Python `str`). -/
abbrev Str := List Char

/-- Whitespace stripped by Python `str.strip()`: space, tab, newline,
vertical tab, form feed, carriage return. (Python also strips further
Unicode space characters; none of the claims depend on those.) -/
def pyWs (c : Char) : Bool :=
  c.toNat = 32 || c.toNat = 9 || c.toNat = 10 || c.toNat = 11 ||
  c.toNat = 12 || c.toNat = 13

/-- Python `str.strip()`: drop whitespace from both ends. -/
def strip (s : Str) : Str :=
  ((s.dropWhile pyWs).reverse.dropWhile pyWs).reverse

/-- Does `q` occur at the start of `s`? (exact character match) -/
def startsAt : Str → Str → Bool
  | [], _ => true
  | _ :: _, [] => false
  | c :: q, d :: s => c = d && startsAt q s

/-- Plain-substring containment, following the spec words for search:
"title contains query OR content contains query ... substring match".
This is the SPEC-side notion, to be compared with the `LIKE` matching the
code actually performs. -/
def specContainsSub (q s : Str) : Bool :=
  startsAt q s ||
    (match s with
     | [] => false
     | _ :: s' => specContainsSub q s')

/-- SQL `LIKE` pattern matching as MySQL evaluates it on a pattern built
by string interpolation: `%` matches any (possibly empty) character
sequence, `_` matches exactly one character, any other pattern character
matches itself. (The collation comparison is abstracted to character
equality, and backslash escapes are not modelled; none of the concrete
inputs used below contain backslashes or case-folded letters.) -/
def likeMatch : Str → Str → Bool
  | [], s => s.isEmpty
  | c :: p, s =>
    if c = '%' then
      s.tails.any (fun t => likeMatch p t)
    else if c = '_' then
      match s with
      | [] => false
      | _ :: s' => likeMatch p s'
    else
      match s with
      | [] => false
      | d :: s' => c = d && likeMatch p s'

/-- The pattern the handler builds at app.py line 466: `f"%{query}%"`. -/
def likePattern (q : Str) : Str := '%' :: (q ++ ['%'])

/-- JSON values as they arrive in a request body (`request.json`). -/
inductive JVal where
  | jstr (s : Str)
  | jnum (n : Int)
  | jbool (b : Bool)
  | jnull
deriving DecidableEq, Repr

/-- A parsed JSON object (Python dict): association list of fields. -/
abbrev JObj := List (String × JVal)

/-- Python `data[k]` / `k in data`: first binding of the key, if any. -/
def jGet (d : JObj) (k : String) : Option JVal :=
  (d.find? (fun kv => kv.1 = k)).map (fun kv => kv.2)

/-- Python `data.get(k, dflt)`. -/
def jGetD (d : JObj) (k : String) (dflt : JVal) : JVal :=
  (jGet d k).getD dflt

/-- Python `v.strip()` on a JSON value: succeeds only on strings;
on a number, boolean or null it raises `AttributeError`, modelled as
`none` (the handlers' `except` clauses turn this into a 500). -/
def pyStrip : JVal → Option Str
  | .jstr s => some (strip s)
  | _ => none

/-- A row of the `notes` table (schema at app.py lines 49-58). -/
structure Note where
  id : Nat
  title : Str
  content : Str
  created_at : Nat
  updated_at : Nat
  is_deleted : Bool
deriving DecidableEq, Repr

/-- Table state: the rows plus the next `AUTO_INCREMENT` id. -/
structure DB where
  rows : List Note
  nextId : Nat
deriving DecidableEq, Repr

/-- `SELECT ... WHERE id = %s` + `fetchone()`: first row with that id. -/
def findNote (rows : List Note) (id : Nat) : Option Note :=
  rows.find? (fun n => n.id = id)

/-! ### CREATE (app.py lines 113-167) -/

/-- Outcomes of `create_note`, one per return site of the handler. -/
inductive CreateRes where
  | missingBody             -- 400 "Request body is required"
  | emptyTitle              -- 400 "Title is required and cannot be empty"
  | connFail                -- 500 "Database connection failed"
  | created (n : Note)      -- 201, body built from the re-queried row
  | internalErr             -- 500, the generic `except` handler
deriving DecidableEq, Repr

def CreateRes.status : CreateRes → Nat
  | .missingBody => 400
  | .emptyTitle => 400
  | .connFail => 500
  | .created _ => 201
  | .internalErr => 500

/-- The row `INSERT INTO notes (title, content) VALUES (%s, %s)` adds:
both timestamps default to `CURRENT_TIMESTAMP` and `is_deleted` defaults
to FALSE (schema lines 51-56). -/
def mkNote (id : Nat) (t c : Str) (now : Nat) : Note :=
  { id := id, title := t, content := c,
    created_at := now, updated_at := now, is_deleted := false }

/-- The `create_note` handler. Mirrors the source order: body truthiness
check, `data.get('title','').strip()`, `data.get('content','').strip()`
(a non-string raises, caught as 500), empty-title check, connection,
INSERT, then re-query by `lastrowid` (a None result would make
`result[0]` raise → 500). -/
def create_note (db : DB) (connOk : Bool) (now : Nat) (body : Option JObj) :
    DB × CreateRes :=
  match body with
  | none => (db, .missingBody)
  | some data =>
    if data = [] then (db, .missingBody)
    else
      match pyStrip (jGetD data "title" (.jstr [])) with
      | none => (db, .internalErr)
      | some title =>
        match pyStrip (jGetD data "content" (.jstr [])) with
        | none => (db, .internalErr)
        | some content =>
          if title = [] then (db, .emptyTitle)
          else if connOk = false then (db, .connFail)
          else
            match findNote (db.rows ++ [mkNote db.nextId title content now])
                db.nextId with
            | none => (db, .internalErr)
            | some r =>
              ({ rows := db.rows ++ [mkNote db.nextId title content now],
                 nextId := db.nextId + 1 },
               .created r)

/-! ### READ ONE (app.py lines 213-255) -/

/-- Outcomes of `get_note`. The 200 payload carries exactly the fields
the handler returns: `is_deleted` has been deleted from the dict
(app.py line 247), so the constructor has no such field. -/
inductive GetRes where
  | connFail                  -- 500
  | notFound                  -- 404 "не найдена" (no row)
  | deletedNotFound           -- 404 "была удалена" (row soft-deleted)
  | ok (id : Nat) (title content : Str) (created_at updated_at : Nat)  -- 200
deriving DecidableEq, Repr

def GetRes.status : GetRes → Nat
  | .connFail => 500
  | .notFound => 404
  | .deletedNotFound => 404
  | .ok _ _ _ _ _ => 200

def get_note (db : DB) (connOk : Bool) (note_id : Nat) : GetRes :=
  if connOk = false then .connFail
  else
    match findNote db.rows note_id with
    | none => .notFound
    | some n =>
      if n.is_deleted then .deletedNotFound
      else .ok n.id n.title n.content n.created_at n.updated_at

/-! ### UPDATE (app.py lines 258-330) -/

inductive UpdateRes where
  | missingBody             -- 400 "Request body is required"
  | connFail                -- 500
  | notFound                -- 404 "не найдена"
  | deletedNote             -- 400 "Нельзя обновить удаленную заметку"
  | emptyTitle              -- 400 "Title cannot be empty"
  | noChanges               -- 200 "No changes detected"
  | updated (id : Nat)      -- 200 "успешно обновлена"
  | internalErr             -- 500
deriving DecidableEq, Repr

def UpdateRes.status : UpdateRes → Nat
  | .missingBody => 400
  | .connFail => 500
  | .notFound => 404
  | .deletedNote => 400
  | .emptyTitle => 400
  | .noChanges => 200
  | .updated _ => 200
  | .internalErr => 500

/-- Effect on one row of `UPDATE notes SET <fields> WHERE id = %s`.
MySQL's `ON UPDATE CURRENT_TIMESTAMP` attribute (schema line 55)
refreshes `updated_at` exactly when some assigned column actually
changes value. -/
def applyUpdate (now : Nat) (newTitle newContent : Option Str) (n : Note) :
    Note :=
  let changed :=
    (match newTitle with | some t => decide (t ≠ n.title) | none => false) ||
    (match newContent with | some c => decide (c ≠ n.content) | none => false)
  { n with
    title := newTitle.getD n.title,
    content := newContent.getD n.content,
    updated_at := if changed then now else n.updated_at }

/-- Final stage of `update_note`: `if not updates: ... "No changes
detected"`, else the single `UPDATE notes SET <queued fields> WHERE id =
%s` (app.py lines 305-315). -/
def updApply (db : DB) (now : Nat) (note_id : Nat)
    (newTitle newContent : Option Str) : DB × UpdateRes :=
  if newTitle = none ∧ newContent = none then (db, .noChanges)
  else
    ({ db with
       rows := db.rows.map (fun r =>
         if r.id = note_id then applyUpdate now newTitle newContent r
         else r) },
     .updated note_id)

/-- Content-field stage of `update_note` (app.py lines 301-303):
`if 'content' in data:` queue `data['content'].strip()`; a non-string
raises → 500. -/
def updContent (db : DB) (now : Nat) (note_id : Nat) (data : JObj)
    (newTitle : Option Str) : DB × UpdateRes :=
  match jGet data "content" with
  | none => updApply db now note_id newTitle none
  | some v =>
    match pyStrip v with
    | none => (db, .internalErr)
    | some c => updApply db now note_id newTitle (some c)

/-- The `update_note` handler, in source order: body truthiness check,
connection, `SELECT is_deleted WHERE id`, 404 / 400-deleted branches,
title field (non-string raises → 500; strips to empty → 400; otherwise
queued), then the content and apply stages. -/
def update_note (db : DB) (connOk : Bool) (now : Nat) (note_id : Nat)
    (body : Option JObj) : DB × UpdateRes :=
  match body with
  | none => (db, .missingBody)
  | some data =>
    if data = [] then (db, .missingBody)
    else if connOk = false then (db, .connFail)
    else
      match findNote db.rows note_id with
      | none => (db, .notFound)
      | some n0 =>
        if n0.is_deleted then (db, .deletedNote)
        else
          match jGet data "title" with
          | none => updContent db now note_id data none
          | some v =>
            match pyStrip v with
            | none => (db, .internalErr)
            | some t =>
              if t = [] then (db, .emptyTitle)
              else updContent db now note_id data (some t)

/-! ### DELETE / RESTORE (app.py lines 333-368 and 371-405) -/

/-- Outcomes shared by `delete_note` and `restore_note`. -/
inductive FlagRes where
  | connFail            -- 500
  | notFound404         -- 404 (zero rows affected)
  | ok (id : Nat)       -- 200
deriving DecidableEq, Repr

def FlagRes.status : FlagRes → Nat
  | .connFail => 500
  | .notFound404 => 404
  | .ok _ => 200

/-- Row predicate of the soft-delete UPDATE:
`WHERE id = %s AND is_deleted = FALSE`. -/
def delTarget (note_id : Nat) (r : Note) : Bool :=
  r.id = note_id && r.is_deleted = false

/-- Row predicate of the restore UPDATE:
`WHERE id = %s AND is_deleted = TRUE`. -/
def resTarget (note_id : Nat) (r : Note) : Bool :=
  r.id = note_id && r.is_deleted = true

/-- `UPDATE notes SET is_deleted = TRUE WHERE id = %s AND is_deleted =
FALSE`. Every affected row really changes (`is_deleted` flips FALSE →
TRUE), so the schema's `ON UPDATE CURRENT_TIMESTAMP` also sets its
`updated_at` to the current timestamp. `rowcount` counts affected rows;
zero → 404. -/
def delete_note (db : DB) (connOk : Bool) (now : Nat) (note_id : Nat) :
    DB × FlagRes :=
  if connOk = false then (db, .connFail)
  else if db.rows.countP (delTarget note_id) = 0 then (db, .notFound404)
  else
    ({ db with
       rows := db.rows.map (fun r =>
         if delTarget note_id r then
           { r with is_deleted := true, updated_at := now }
         else r) },
     .ok note_id)

/-- `UPDATE notes SET is_deleted = FALSE WHERE id = %s AND is_deleted =
TRUE`, symmetric to `delete_note` (again `updated_at` refreshes on every
affected row). -/
def restore_note (db : DB) (connOk : Bool) (now : Nat) (note_id : Nat) :
    DB × FlagRes :=
  if connOk = false then (db, .connFail)
  else if db.rows.countP (resTarget note_id) = 0 then (db, .notFound404)
  else
    ({ db with
       rows := db.rows.map (fun r =>
         if resTarget note_id r then
           { r with is_deleted := false, updated_at := now }
         else r) },
     .ok note_id)

/-! ### READ ALL (app.py lines 170-210) and SEARCH (lines 451-497)

Both queries end in `ORDER BY created_at DESC` with no secondary key, so
the relative order of rows with equal `created_at` is chosen by the
store and is not specified. The two handlers are therefore embedded as
relations between the table state and the possible responses: a response
is possible exactly when its row list is a permutation of the rows the
WHERE clause selects, arranged in non-increasing `created_at`. -/

/-- The rows list is in non-increasing `created_at` order
(`ORDER BY created_at DESC`). -/
def sortedByCreatedDesc (l : List Note) : Prop :=
  l.Pairwise (fun a b => b.created_at ≤ a.created_at)

instance (l : List Note) : Decidable (sortedByCreatedDesc l) :=
  inferInstanceAs (Decidable (l.Pairwise _))

inductive ListRes where
  | connFail                -- 500
  | ok (notes : List Note)  -- 200 `{notes, count, message}`
deriving DecidableEq, Repr

def ListRes.status : ListRes → Nat
  | .connFail => 500
  | .ok _ => 200

/-- Row predicate of the READ ALL query: `WHERE is_deleted = FALSE`. -/
def activeRow (r : Note) : Bool := r.is_deleted = false

/-- The `get_all_notes` handler as a relation: `res` is a possible
response of the handler on table `db`. -/
def get_all_notes (db : DB) (connOk : Bool) (res : ListRes) : Prop :=
  if connOk = false then res = .connFail
  else
    ∃ l, res = .ok l ∧ l.Perm (db.rows.filter activeRow) ∧
      sortedByCreatedDesc l

inductive SearchRes where
  | emptyQuery                -- 400 "Search query is required"
  | connFail                  -- 500
  | ok (results : List Note)  -- 200 `{query, results, count}`
deriving DecidableEq, Repr

def SearchRes.status : SearchRes → Nat
  | .emptyQuery => 400
  | .connFail => 500
  | .ok _ => 200

/-- Row predicate of the search query for the (already stripped)
query `q`: `is_deleted = FALSE AND (title LIKE %q% OR content LIKE
%q%)`. -/
def searchRow (q : Str) (r : Note) : Bool :=
  r.is_deleted = false &&
    (likeMatch (likePattern q) r.title || likeMatch (likePattern q) r.content)

/-- The `search_notes` handler as a relation: strips the query string,
rejects an empty result with 400, otherwise returns the matching active
rows in `created_at`-descending order. -/
def search_notes (db : DB) (connOk : Bool) (q0 : Str) (res : SearchRes) :
    Prop :=
  if strip q0 = [] then res = .emptyQuery
  else if connOk = false then res = .connFail
  else
    ∃ l, res = .ok l ∧ l.Perm (db.rows.filter (searchRow (strip q0))) ∧
      sortedByCreatedDesc l

/-! ### Connection accounting for the probe endpoints

`index` (app.py lines 73-95) and `health` (lines 97-110) call
`get_db_connection()` only to compute the `db_status` string and never
close the returned connection. -/

inductive ConnEvent where
  | opened
  | closed
deriving DecidableEq, Repr

/-- Connection events of one invocation of the `index` handler: when the
store is reachable, line 76 opens a connection that no code path
closes. -/
def index_conn_events (connOk : Bool) : List ConnEvent :=
  if connOk then [.opened] else []

/-- Connection events of one invocation of the `health` handler
(line 100), identical to `index`. -/
def health_conn_events (connOk : Bool) : List ConnEvent :=
  if connOk then [.opened] else []

/-- A handler invocation is leak-free when it closes as many connections
as it opens. -/
def balancedConns (t : List ConnEvent) : Prop :=
  t.count .opened = t.count .closed

instance (t : List ConnEvent) : Decidable (balancedConns t) :=
  inferInstanceAs (Decidable (_ = _))

/-! ### A witness ordering: the store can always produce some row order
satisfying `ORDER BY created_at DESC` (insertion sort on the filtered
rows). -/

def insertDesc (n : Note) : List Note → List Note
  | [] => [n]
  | m :: l =>
    if n.created_at ≤ m.created_at then m :: insertDesc n l else n :: m :: l

def sortDesc : List Note → List Note
  | [] => []
  | n :: l => insertDesc n (sortDesc l)

theorem perm_insertDesc (n : Note) :
    ∀ l : List Note, (insertDesc n l).Perm (n :: l)
  | [] => List.Perm.refl _
  | m :: l => by
    unfold insertDesc
    split
    · exact ((perm_insertDesc n l).cons m).trans (List.Perm.swap n m l)
    · exact List.Perm.refl _

theorem sorted_insertDesc (n : Note) :
    ∀ l : List Note, sortedByCreatedDesc l →
      sortedByCreatedDesc (insertDesc n l)
  | [], _ => by
    unfold insertDesc sortedByCreatedDesc
    simp
  | m :: l, h => by
    rcases List.pairwise_cons.1 h with ⟨hm, hl⟩
    unfold insertDesc
    split
    next hle =>
      refine List.pairwise_cons.2 ⟨?_, sorted_insertDesc n l hl⟩
      intro x hx
      rcases List.mem_cons.1 ((perm_insertDesc n l).mem_iff.1 hx) with rfl | hx
      · exact hle
      · exact hm x hx
    next hgt =>
      refine List.pairwise_cons.2 ⟨?_, h⟩
      intro x hx
      rcases List.mem_cons.1 hx with rfl | hx
      · exact le_of_not_le hgt
      · exact le_trans (hm x hx) (le_of_not_le hgt)

theorem perm_sortDesc : ∀ l : List Note, (sortDesc l).Perm l
  | [] => List.Perm.refl _
  | n :: l => by
    unfold sortDesc
    exact (perm_insertDesc n (sortDesc l)).trans ((perm_sortDesc l).cons n)

theorem sorted_sortDesc : ∀ l : List Note, sortedByCreatedDesc (sortDesc l)
  | [] => by unfold sortDesc sortedByCreatedDesc; simp
  | n :: l => sorted_insertDesc n (sortDesc l) (sorted_sortDesc l)

/-! ### Properties of `strip` -/

theorem dropWhile_head?_false {α} (p : α → Bool) :
    ∀ (l : List α) (a : α), (l.dropWhile p).head? = some a → p a = false
  | [], a => by simp
  | c :: l, a => by
    by_cases hc : p c
    · rw [List.dropWhile_cons, if_pos hc]
      exact dropWhile_head?_false p l a
    · rw [List.dropWhile_cons, if_neg hc]
      intro h
      cases h
      exact Bool.eq_false_iff.2 hc

theorem dropWhile_eq_self_of_head? {α} (p : α → Bool) (l : List α)
    (h : ∀ a, l.head? = some a → p a = false) : l.dropWhile p = l := by
  cases l with
  | nil => rfl
  | cons c l => rw [List.dropWhile_cons, if_neg (by simp [h c rfl])]

theorem getLast?_dropWhile {α} (p : α → Bool) :
    ∀ l : List α, l.dropWhile p ≠ [] →
      (l.dropWhile p).getLast? = l.getLast?
  | [], h => absurd rfl h
  | c :: l, h => by
    by_cases hc : p c
    · have hd : (c :: l).dropWhile p = l.dropWhile p := by
        rw [List.dropWhile_cons, if_pos hc]
      rw [hd] at h ⊢
      have hl : l ≠ [] := by
        intro e
        rw [e] at h
        exact h rfl
      rw [getLast?_dropWhile p l h]
      cases l with
      | nil => exact absurd rfl hl
      | cons b l' => rw [List.getLast?_cons_cons]
    · rw [List.dropWhile_cons, if_neg hc]

theorem strip_head?_false (s : Str) (a : Char)
    (h : (strip s).head? = some a) : pyWs a = false := by
  unfold strip at h
  rw [List.head?_reverse] at h
  have hne : ((s.dropWhile pyWs).reverse.dropWhile pyWs) ≠ [] := by
    intro e
    rw [e] at h
    exact Option.noConfusion h
  rw [getLast?_dropWhile pyWs _ hne, List.getLast?_reverse] at h
  exact dropWhile_head?_false pyWs s a h

theorem strip_getLast?_false (s : Str) (a : Char)
    (h : (strip s).getLast? = some a) : pyWs a = false := by
  unfold strip at h
  rw [List.getLast?_reverse] at h
  exact dropWhile_head?_false pyWs (s.dropWhile pyWs).reverse a h

theorem strip_eq_self (s : Str)
    (h1 : ∀ a, s.head? = some a → pyWs a = false)
    (h2 : ∀ a, s.getLast? = some a → pyWs a = false) : strip s = s := by
  unfold strip
  rw [dropWhile_eq_self_of_head? pyWs s h1]
  rw [dropWhile_eq_self_of_head? pyWs s.reverse
    (fun a ha => h2 a (by rwa [List.head?_reverse] at ha))]
  exact List.reverse_reverse s

/-- `strip` is idempotent: a stripped string strips to itself. -/
theorem strip_idem (s : Str) : strip (strip s) = strip s :=
  strip_eq_self (strip s) (strip_head?_false s) (strip_getLast?_false s)

/-! ### Small facts about the row predicates and `pyStrip` -/

theorem delTarget_iff (id : Nat) (n : Note) :
    delTarget id n = true ↔ n.id = id ∧ n.is_deleted = false := by
  simp [delTarget]

theorem resTarget_iff (id : Nat) (n : Note) :
    resTarget id n = true ↔ n.id = id ∧ n.is_deleted = true := by
  simp [resTarget]

theorem pyStrip_eq_some (v : JVal) (t : Str) (h : pyStrip v = some t) :
    ∃ s, v = .jstr s ∧ t = strip s := by
  cases v with
  | jstr s =>
    refine ⟨s, rfl, ?_⟩
    injection h with h
    exact h.symm
  | jnum n => exact absurd h (by simp [pyStrip])
  | jbool b => exact absurd h (by simp [pyStrip])
  | jnull => exact absurd h (by simp [pyStrip])

/-! ### `findNote` under the primary-key invariant -/

theorem findNote_eq_none (rows : List Note) (id : Nat)
    (h : ∀ n ∈ rows, n.id ≠ id) : findNote rows id = none := by
  unfold findNote
  rw [List.find?_eq_none]
  intro x hx
  simp [h x hx]

theorem findNote_eq_some (rows : List Note) (id : Nat) (n : Note)
    (hnd : (rows.map Note.id).Nodup) (hn : n ∈ rows) (hid : n.id = id) :
    findNote rows id = some n := by
  cases hf : findNote rows id with
  | none =>
    unfold findNote at hf
    exact absurd (by simp [hid]) (List.find?_eq_none.1 hf n hn)
  | some m =>
    unfold findNote at hf
    have hm := List.mem_of_find?_eq_some hf
    have hmid : m.id = id := by simpa using List.find?_some hf
    have : m = n :=
      List.inj_on_of_nodup_map hnd hm hn (by rw [hmid, hid])
    rw [this]

theorem findNote_append_fresh (rows : List Note) (n : Note) (id : Nat)
    (hid : n.id = id) (h : ∀ m ∈ rows, m.id ≠ id) :
    findNote (rows ++ [n]) id = some n := by
  unfold findNote
  rw [List.find?_append]
  have h1 : rows.find? (fun m => m.id = id) = none := by
    rw [List.find?_eq_none]
    intro x hx
    simp [h x hx]
  rw [h1]
  simp [List.find?, hid]

/-! ## Claims -/

/-- Claim C1 counterexample: soft-deleting an active note does NOT leave
`updated_at` unchanged. On the table holding the single active note with
id 1 and `updated_at = 0`, `soft_delete(1)` at clock 5 succeeds and the
stored row afterwards has `updated_at = 5 ≠ 0`: the schema's `ON UPDATE
CURRENT_TIMESTAMP` attribute refreshes `updated_at` whenever the UPDATE
changes the row, and the soft-delete UPDATE always flips `is_deleted`. -/
theorem C1_delete_changes_updated_at :
    (delete_note ⟨[⟨1, ['a'], [], 0, 0, false⟩], 2⟩ true 5 1).2 = .ok 1 ∧
    (delete_note ⟨[⟨1, ['a'], [], 0, 0, false⟩], 2⟩ true 5 1).1.rows =
      [⟨1, ['a'], [], 0, 5, true⟩] ∧
    (5 : Nat) ≠ 0 := by decide

/-- Claim C1 (amended): a successful `soft_delete(id)` / `restore(id)`
refreshes the affected note's `updated_at` to the current timestamp
(`ON UPDATE CURRENT_TIMESTAMP`), leaving its id, title, content and
`created_at` unchanged; every row the conditional UPDATE does not match
is stored unchanged. -/
theorem C1_amended_flag_ops_refresh_updated_at (db : DB) (now id : Nat) :
    (∀ n ∈ db.rows, delTarget id n = true →
      ({ n with is_deleted := true, updated_at := now } : Note) ∈
        (delete_note db true now id).1.rows) ∧
    (∀ n ∈ db.rows, delTarget id n = false →
      n ∈ (delete_note db true now id).1.rows) ∧
    (∀ n ∈ db.rows, resTarget id n = true →
      ({ n with is_deleted := false, updated_at := now } : Note) ∈
        (restore_note db true now id).1.rows) ∧
    (∀ n ∈ db.rows, resTarget id n = false →
      n ∈ (restore_note db true now id).1.rows) := by
  unfold delete_note restore_note
  rw [if_neg (by decide)]
  refine ⟨?_, ?_, ?_, ?_⟩ <;> intro n hn ht
  · by_cases h0 : db.rows.countP (delTarget id) = 0
    · exact absurd (List.countP_eq_zero.1 h0 n hn) (by simp [ht])
    · rw [if_neg h0]
      have hm := List.mem_map_of_mem
        (fun r => if delTarget id r then
          { r with is_deleted := true, updated_at := now } else r) hn
      simpa [ht] using hm
  · by_cases h0 : db.rows.countP (delTarget id) = 0
    · rw [if_pos h0]; exact hn
    · rw [if_neg h0]
      have hm := List.mem_map_of_mem
        (fun r => if delTarget id r then
          { r with is_deleted := true, updated_at := now } else r) hn
      simpa [ht] using hm
  · by_cases h0 : db.rows.countP (resTarget id) = 0
    · exact absurd (List.countP_eq_zero.1 h0 n hn) (by simp [ht])
    · rw [if_neg h0]
      have hm := List.mem_map_of_mem
        (fun r => if resTarget id r then
          { r with is_deleted := false, updated_at := now } else r) hn
      simpa [ht] using hm
  · by_cases h0 : db.rows.countP (resTarget id) = 0
    · rw [if_pos h0]; exact hn
    · rw [if_neg h0]
      have hm := List.mem_map_of_mem
        (fun r => if resTarget id r then
          { r with is_deleted := false, updated_at := now } else r) hn
      simpa [ht] using hm

/-- Witness for the amended C1 at a concrete table. -/
theorem C1_amended_witness :
    ({ (⟨1, ['a'], [], 0, 0, false⟩ : Note) with
       is_deleted := true, updated_at := 5 } : Note) ∈
      (delete_note ⟨[⟨1, ['a'], [], 0, 0, false⟩], 2⟩ true 5 1).1.rows :=
  (C1_amended_flag_ops_refresh_updated_at
      ⟨[⟨1, ['a'], [], 0, 0, false⟩], 2⟩ 5 1).1
    ⟨1, ['a'], [], 0, 0, false⟩ (by decide) (by decide)

/-- Claim C9 is refuted by the code: the `index` handler (app.py line 76)
and the `health` handler (line 100) each call `get_db_connection()` to
probe the store and never close the connection they open, so a request
served while the database is reachable leaks one connection. -/
theorem C9_index_health_leak :
    index_conn_events true = [.opened] ∧
    ¬balancedConns (index_conn_events true) ∧
    health_conn_events true = [.opened] ∧
    ¬balancedConns (health_conn_events true) := by decide

/-- Claim C10: request bodies whose `title` or `content` field is present
but not a JSON string make `create` and `update` fail with the generic
500 handler (the `.strip()` call raises `AttributeError`), not with a
400 validation error. Shown on a numeric title, a null content, for both
handlers, against a table holding the active note with id 1. -/
theorem C10_nonstring_fields_500 :
    (create_note ⟨[], 1⟩ true 0 (some [("title", .jnum 5)])).2 =
      .internalErr ∧
    (create_note ⟨[], 1⟩ true 0
        (some [("title", .jstr ['a']), ("content", .jnull)])).2 =
      .internalErr ∧
    (update_note ⟨[⟨1, ['a'], [], 0, 0, false⟩], 2⟩ true 3 1
        (some [("title", .jnum 5)])).2 = .internalErr ∧
    (update_note ⟨[⟨1, ['a'], [], 0, 0, false⟩], 2⟩ true 3 1
        (some [("content", .jnull)])).2 = .internalErr ∧
    CreateRes.status .internalErr = 500 ∧
    UpdateRes.status .internalErr = 500 ∧
    (500 : Nat) ≠ 400 := by decide

/-- Claim C2 counterexample: characters of the query ARE interpreted as
`LIKE` wildcards, because the handler interpolates the raw query into the
pattern `%{query}%`. For the query `"_"` against a table whose only
active note has title `"ab"` and empty content, a possible 200 response
contains that note, although neither its title nor its content contains
`"_"` as a plain substring. -/
theorem C2_underscore_is_wildcard :
    search_notes ⟨[⟨1, ['a', 'b'], [], 0, 0, false⟩], 2⟩ true ['_']
      (.ok [⟨1, ['a', 'b'], [], 0, 0, false⟩]) ∧
    specContainsSub (strip ['_']) ['a', 'b'] = false ∧
    specContainsSub (strip ['_']) [] = false := by
  refine ⟨?_, by decide, by decide⟩
  unfold search_notes
  rw [if_neg (by decide), if_neg (by decide)]
  exact ⟨_, rfl, by decide, by decide⟩

/-- Claim C2 (amended): for a query non-empty after trimming, every
possible 200 response of `search` consists of exactly the non-deleted
notes whose title or content matches the SQL `LIKE` pattern `%q%` built
from the trimmed query — characters `%` and `_` of the query act as
wildcards; a query without them is matched as a plain substring — in
non-increasing `created_at` order. -/
theorem C2_amended_search_like (db : DB) (q0 : Str) (l : List Note)
    (hq : strip q0 ≠ []) (h : search_notes db true q0 (.ok l)) :
    (∀ n, n ∈ l ↔ n ∈ db.rows ∧ n.is_deleted = false ∧
      (likeMatch (likePattern (strip q0)) n.title = true ∨
       likeMatch (likePattern (strip q0)) n.content = true)) ∧
    sortedByCreatedDesc l := by
  unfold search_notes at h
  rw [if_neg hq, if_neg (by decide)] at h
  obtain ⟨l', hl, hperm, hsort⟩ := h
  injection hl with hl
  subst hl
  refine ⟨fun n => ?_, hsort⟩
  rw [hperm.mem_iff, List.mem_filter]
  simp [searchRow, and_assoc]

/-- Witness for the amended C2: the query `"a"` against a table with one
matching active note. -/
theorem C2_amended_witness :
    (∀ n, n ∈ ([⟨1, ['a'], [], 0, 0, false⟩] : List Note) ↔
      n ∈ (⟨[⟨1, ['a'], [], 0, 0, false⟩], 2⟩ : DB).rows ∧
      n.is_deleted = false ∧
      (likeMatch (likePattern (strip ['a'])) n.title = true ∨
       likeMatch (likePattern (strip ['a'])) n.content = true)) ∧
    sortedByCreatedDesc [⟨1, ['a'], [], 0, 0, false⟩] :=
  C2_amended_search_like ⟨[⟨1, ['a'], [], 0, 0, false⟩], 2⟩ ['a']
    [⟨1, ['a'], [], 0, 0, false⟩] (by decide)
    (by
      unfold search_notes
      rw [if_neg (by decide), if_neg (by decide)]
      exact ⟨_, rfl, by decide, by decide⟩)

/-- Claim C3 counterexample: the READ ALL query orders only by
`created_at DESC`, with no secondary key, so on a table with two active
notes sharing one `created_at` both relative orders are possible
responses — the result order is not determined by id/insertion order and
is not deterministic. -/
theorem C3_tie_order_not_deterministic :
    get_all_notes
      ⟨[⟨1, ['a'], [], 5, 5, false⟩, ⟨2, ['b'], [], 5, 5, false⟩], 3⟩ true
      (.ok [⟨1, ['a'], [], 5, 5, false⟩, ⟨2, ['b'], [], 5, 5, false⟩]) ∧
    get_all_notes
      ⟨[⟨1, ['a'], [], 5, 5, false⟩, ⟨2, ['b'], [], 5, 5, false⟩], 3⟩ true
      (.ok [⟨2, ['b'], [], 5, 5, false⟩, ⟨1, ['a'], [], 5, 5, false⟩]) ∧
    (ListRes.ok [⟨1, ['a'], [], 5, 5, false⟩, ⟨2, ['b'], [], 5, 5, false⟩] ≠
      .ok [⟨2, ['b'], [], 5, 5, false⟩, ⟨1, ['a'], [], 5, 5, false⟩]) := by
  refine ⟨?_, ?_, by decide⟩ <;>
    · unfold get_all_notes
      rw [if_neg (by decide)]
      exact ⟨_, rfl, by decide, by decide⟩

/-- Claim C3 (amended): every possible 200 response of `list_active`
consists of exactly the notes with `is_deleted = false`, in
non-increasing `created_at` order; the relative order of notes with equal
`created_at` is unspecified (the query has no secondary sort key). -/
theorem C3_amended_list_active (db : DB) (l : List Note)
    (h : get_all_notes db true (.ok l)) :
    (∀ n, n ∈ l ↔ n ∈ db.rows ∧ n.is_deleted = false) ∧
    sortedByCreatedDesc l := by
  unfold get_all_notes at h
  rw [if_neg (by decide)] at h
  obtain ⟨l', hl, hperm, hsort⟩ := h
  injection hl with hl
  subst hl
  refine ⟨fun n => ?_, hsort⟩
  rw [hperm.mem_iff, List.mem_filter]
  simp [activeRow]

/-- Claim C4 counterexample: a create request whose title is
whitespace-only does NOT always fail with 400 — with a non-string content
value it fails with the 500 internal handler instead, because
`data.get('content','').strip()` runs (and raises) before the empty-title
check. Nothing is inserted either way (the state is returned
unchanged). -/
theorem C4_ws_title_nonstring_content_500 :
    create_note ⟨[], 1⟩ true 0
        (some [("title", .jstr [' ']), ("content", .jnum 5)]) =
      (⟨[], 1⟩, .internalErr) ∧
    strip [' '] = [] ∧
    CreateRes.status .internalErr = 500 ∧
    (500 : Nat) ≠ 400 := by decide

/-- Claim C4 (amended): for create requests in which the title and
content fields are JSON strings when present (so `.strip()` cannot
raise): a title that trims to empty yields the 400 validation outcome
and leaves the table unchanged; a title that trims non-empty (with a
fresh `AUTO_INCREMENT` id) appends the row with trimmed title, trimmed
content and `is_deleted = false`, and answers 201 with the re-queried
row. -/
theorem C4_amended_create (db : DB) (now : Nat) (data : JObj)
    (hne : data ≠ []) (ts cs : Str)
    (hts : jGetD data "title" (.jstr []) = .jstr ts)
    (hcs : jGetD data "content" (.jstr []) = .jstr cs) :
    (strip ts = [] →
      create_note db true now (some data) = (db, .emptyTitle) ∧
      CreateRes.status .emptyTitle = 400) ∧
    (strip ts ≠ [] → (∀ n ∈ db.rows, n.id ≠ db.nextId) →
      create_note db true now (some data) =
        ({ rows := db.rows ++ [mkNote db.nextId (strip ts) (strip cs) now],
           nextId := db.nextId + 1 },
         .created (mkNote db.nextId (strip ts) (strip cs) now)) ∧
      (mkNote db.nextId (strip ts) (strip cs) now).is_deleted = false ∧
      CreateRes.status
        (.created (mkNote db.nextId (strip ts) (strip cs) now)) = 201) := by
  constructor
  · intro h0
    refine ⟨?_, rfl⟩
    simp only [create_note]
    rw [if_neg hne, hts, hcs]
    simp only [pyStrip]
    rw [if_pos h0]
  · intro h0 hfresh
    refine ⟨?_, rfl, rfl⟩
    simp only [create_note]
    rw [if_neg hne, hts, hcs]
    simp only [pyStrip]
    rw [if_neg h0, if_neg (by decide),
      findNote_append_fresh db.rows (mkNote db.nextId (strip ts) (strip cs) now)
        db.nextId rfl hfresh]

/-- Witness for the amended C4: a padded title and content are stored
trimmed; a whitespace-only title is rejected. -/
theorem C4_amended_witness :
    create_note ⟨[], 1⟩ true 7
        (some [("title", .jstr [' ', 'a']), ("content", .jstr ['c', ' '])]) =
      (⟨[mkNote 1 (strip [' ', 'a']) (strip ['c', ' ']) 7], 2⟩,
       .created (mkNote 1 (strip [' ', 'a']) (strip ['c', ' ']) 7)) ∧
    create_note ⟨[], 1⟩ true 7 (some [("title", .jstr [' '])]) =
      (⟨[], 1⟩, .emptyTitle) := by
  constructor
  · exact ((C4_amended_create ⟨[], 1⟩ 7 _ (by decide) [' ', 'a'] ['c', ' ']
      (by decide) (by decide)).2 (by decide) (by decide)).1
  · exact ((C4_amended_create ⟨[], 1⟩ 7 _ (by decide) [' '] []
      (by decide) (by decide)).1 (by decide)).1

/-- Claim C6 counterexample: an empty (but present) JSON object body is
caught by the `if not data` guard and yields the 400 missing-body
outcome in every case — so for an existing active note the request does
NOT succeed as a "no changes" no-op, for an absent id it does NOT yield
404, and for a deleted note it does NOT yield the invalid-state
outcome. -/
theorem C6_empty_body_beats_all_branches :
    update_note ⟨[⟨1, ['a'], [], 0, 0, false⟩], 2⟩ true 3 1 (some []) =
      (⟨[⟨1, ['a'], [], 0, 0, false⟩], 2⟩, .missingBody) ∧
    (UpdateRes.missingBody ≠ .noChanges) ∧
    update_note ⟨[⟨1, ['a'], [], 0, 0, false⟩], 2⟩ true 3 2 (some []) =
      (⟨[⟨1, ['a'], [], 0, 0, false⟩], 2⟩, .missingBody) ∧
    (UpdateRes.missingBody ≠ .notFound) ∧
    update_note ⟨[⟨1, ['a'], [], 0, 0, true⟩], 2⟩ true 3 1 (some []) =
      (⟨[⟨1, ['a'], [], 0, 0, true⟩], 2⟩, .missingBody) ∧
    (UpdateRes.missingBody ≠ .deletedNote) ∧
    UpdateRes.status .missingBody = 400 := by decide

/-- Claim C6 (amended): for non-empty request bodies, `update` on a
soft-deleted note yields the invalid-state 400 outcome with the state
unchanged; on an absent id the 404 outcome; and on an active note whose
body contains neither `title` nor `content` the 200 "no changes" no-op.
An empty or missing body instead yields the 400 missing-body outcome
before any lookup. -/
theorem C6_amended_update (db : DB) (now id : Nat) (data : JObj)
    (hne : data ≠ []) :
    (findNote db.rows id = none →
      update_note db true now id (some data) = (db, .notFound) ∧
      UpdateRes.status .notFound = 404) ∧
    (∀ n, findNote db.rows id = some n → n.is_deleted = true →
      update_note db true now id (some data) = (db, .deletedNote) ∧
      UpdateRes.status .deletedNote = 400) ∧
    (∀ n, findNote db.rows id = some n → n.is_deleted = false →
      jGet data "title" = none → jGet data "content" = none →
      update_note db true now id (some data) = (db, .noChanges) ∧
      UpdateRes.status .noChanges = 200) ∧
    update_note db true now id (some []) = (db, .missingBody) ∧
    update_note db true now id none = (db, .missingBody) ∧
    UpdateRes.status .missingBody = 400 := by
  refine ⟨?_, ?_, ?_, by unfold update_note; rfl, rfl, rfl⟩
  · intro hf
    refine ⟨?_, rfl⟩
    simp only [update_note]
    rw [if_neg hne, if_neg (by decide), hf]
  · intro n hf hdel
    refine ⟨?_, rfl⟩
    simp only [update_note]
    rw [if_neg hne, if_neg (by decide), hf]
    simp [hdel]
  · intro n hf hdel ht hc
    refine ⟨?_, rfl⟩
    simp only [update_note]
    rw [if_neg hne, if_neg (by decide)]
    simp only [hf]
    rw [if_neg (by simp [hdel])]
    simp only [ht, updContent, hc, updApply]
    simp

/-- Witness for the amended C6 on concrete states: absent id, deleted
note, and an active note with an unrecognized-only body. -/
theorem C6_amended_witness :
    update_note ⟨[], 1⟩ true 0 7 (some [("x", .jnull)]) =
      (⟨[], 1⟩, .notFound) ∧
    update_note ⟨[⟨1, ['a'], [], 0, 0, true⟩], 2⟩ true 0 1
        (some [("x", .jnull)]) =
      (⟨[⟨1, ['a'], [], 0, 0, true⟩], 2⟩, .deletedNote) ∧
    update_note ⟨[⟨1, ['a'], [], 0, 0, false⟩], 2⟩ true 0 1
        (some [("x", .jnull)]) =
      (⟨[⟨1, ['a'], [], 0, 0, false⟩], 2⟩, .noChanges) := by
  refine ⟨?_, ?_, ?_⟩
  · exact ((C6_amended_update ⟨[], 1⟩ 0 7 [("x", .jnull)] (by decide)).1
      (by decide)).1
  · exact ((C6_amended_update ⟨[⟨1, ['a'], [], 0, 0, true⟩], 2⟩ 0 1
      [("x", .jnull)] (by decide)).2.1 ⟨1, ['a'], [], 0, 0, true⟩
      (by decide) rfl).1
  · exact ((C6_amended_update ⟨[⟨1, ['a'], [], 0, 0, false⟩], 2⟩ 0 1
      [("x", .jnull)] (by decide)).2.2.1 ⟨1, ['a'], [], 0, 0, false⟩
      (by decide) rfl (by decide) (by decide)).1

/-- Claim C5: with unique ids (the primary-key invariant), `get(id)`
returns the 404 not-found outcome when no row has that id, the 404
deleted outcome when the row is soft-deleted, and otherwise the 200
payload carrying exactly id, title, content and the two timestamps — the
`ok` outcome has no `is_deleted` field, mirroring
`del note['is_deleted']`. -/
theorem C5_get_note (db : DB) (id : Nat)
    (hnd : (db.rows.map Note.id).Nodup) :
    ((∀ n ∈ db.rows, n.id ≠ id) → get_note db true id = .notFound) ∧
    (∀ n ∈ db.rows, n.id = id → n.is_deleted = true →
      get_note db true id = .deletedNotFound) ∧
    (∀ n ∈ db.rows, n.id = id → n.is_deleted = false →
      get_note db true id =
        .ok n.id n.title n.content n.created_at n.updated_at) ∧
    GetRes.status .notFound = 404 ∧
    GetRes.status .deletedNotFound = 404 ∧
    (∀ a b c d e, GetRes.status (.ok a b c d e) = 200) := by
  refine ⟨?_, ?_, ?_, rfl, rfl, fun a b c d e => rfl⟩
  · intro h
    unfold get_note
    rw [if_neg (by decide), findNote_eq_none db.rows id h]
  · intro n hn hid hdel
    unfold get_note
    rw [if_neg (by decide), findNote_eq_some db.rows id n hnd hn hid]
    simp [hdel]
  · intro n hn hid hdel
    unfold get_note
    rw [if_neg (by decide), findNote_eq_some db.rows id n hnd hn hid]
    simp [hdel]

/-- Witness for C5 on a two-row table: absent id, deleted row, active
row. -/
theorem C5_witness :
    get_note ⟨[⟨1, ['a'], [], 0, 0, true⟩, ⟨2, ['b'], ['c'], 3, 4, false⟩],
        3⟩ true 5 = .notFound ∧
    get_note ⟨[⟨1, ['a'], [], 0, 0, true⟩, ⟨2, ['b'], ['c'], 3, 4, false⟩],
        3⟩ true 1 = .deletedNotFound ∧
    get_note ⟨[⟨1, ['a'], [], 0, 0, true⟩, ⟨2, ['b'], ['c'], 3, 4, false⟩],
        3⟩ true 2 = .ok 2 ['b'] ['c'] 3 4 := by
  refine ⟨(C5_get_note _ 5 (by decide)).1 (by decide), ?_, ?_⟩
  · exact (C5_get_note _ 1 (by decide)).2.1 ⟨1, ['a'], [], 0, 0, true⟩
      (by decide) rfl rfl
  · exact (C5_get_note _ 2 (by decide)).2.2.1 ⟨2, ['b'], ['c'], 3, 4, false⟩
      (by decide) rfl rfl

/-- Claim C7: `restore(id)` answers 200 exactly when some row has that id
and is currently soft-deleted; otherwise it answers 404; and immediately
repeating a successful restore on the resulting state answers 404, not an
already-restored success. -/
theorem C7_restore_conditional (db : DB) (now now2 id : Nat) :
    ((restore_note db true now id).2 = .ok id ↔
      ∃ n ∈ db.rows, n.id = id ∧ n.is_deleted = true) ∧
    ((∀ n ∈ db.rows, ¬(n.id = id ∧ n.is_deleted = true)) →
      restore_note db true now id = (db, .notFound404) ∧
      FlagRes.status .notFound404 = 404) ∧
    (∀ db', restore_note db true now id = (db', .ok id) →
      (restore_note db' true now2 id).2 = .notFound404) := by
  refine ⟨?_, ?_, ?_⟩
  · by_cases h0 : db.rows.countP (resTarget id) = 0
    · constructor
      · intro h
        unfold restore_note at h
        rw [if_neg (by decide), if_pos h0] at h
        exact absurd h (by simp)
      · rintro ⟨n, hn, hid, hdel⟩
        exact absurd ((resTarget_iff id n).2 ⟨hid, hdel⟩)
          (List.countP_eq_zero.1 h0 n hn)
    · constructor
      · intro _
        rcases List.countP_pos_iff.1 (Nat.pos_of_ne_zero h0) with ⟨n, hn, hp⟩
        exact ⟨n, hn, (resTarget_iff id n).1 hp⟩
      · intro _
        unfold restore_note
        rw [if_neg (by decide), if_neg h0]
  · intro h
    refine ⟨?_, rfl⟩
    unfold restore_note
    rw [if_neg (by decide), if_pos (List.countP_eq_zero.2
      (fun n hn hp => h n hn ((resTarget_iff id n).1 hp)))]
  · intro db' h
    unfold restore_note at h
    rw [if_neg (by decide)] at h
    by_cases h0 : db.rows.countP (resTarget id) = 0
    · rw [if_pos h0] at h
      exact absurd (congrArg Prod.snd h) (by simp)
    · rw [if_neg h0] at h
      have hdb : db' = { db with rows := db.rows.map (fun r =>
          if resTarget id r then
            { r with is_deleted := false, updated_at := now }
          else r) } :=
        (congrArg Prod.fst h).symm
      have hz : db'.rows.countP (resTarget id) = 0 := by
        rw [hdb]
        rw [List.countP_eq_zero]
        intro m hm
        rcases List.mem_map.1 hm with ⟨r, hr, rfl⟩
        by_cases hrt : resTarget id r = true
        · rw [if_pos hrt]
          simp [resTarget]
        · rw [if_neg hrt]
          exact hrt
      unfold restore_note
      rw [if_neg (by decide), if_pos hz]

/-- Witness for C7: restoring the deleted note with id 1 succeeds, and
restoring again on the resulting state yields the 404 outcome. -/
theorem C7_witness :
    (restore_note ⟨[⟨1, ['a'], [], 0, 0, true⟩], 2⟩ true 4 1).2 = .ok 1 ∧
    (restore_note ⟨[⟨1, ['a'], [], 0, 4, false⟩], 2⟩ true 5 1).2 =
      .notFound404 := by
  have h := C7_restore_conditional ⟨[⟨1, ['a'], [], 0, 0, true⟩], 2⟩ 4 5 1
  exact ⟨h.1.mpr ⟨⟨1, ['a'], [], 0, 0, true⟩, by decide, rfl, rfl⟩,
    h.2.2 ⟨[⟨1, ['a'], [], 0, 4, false⟩], 2⟩ (by decide)⟩

/-- Invariant of Claim C8: every stored title is non-empty after
trimming. -/
def goodTitles (db : DB) : Prop := ∀ n ∈ db.rows, strip n.title ≠ []

instance (db : DB) : Decidable (goodTitles db) :=
  List.decidableBAll _ db.rows

theorem goodTitles_create (db : DB) (connOk : Bool) (now : Nat)
    (body : Option JObj) (h : goodTitles db) :
    goodTitles (create_note db connOk now body).1 := by
  unfold create_note
  split
  · exact h
  · split
    · exact h
    · split
      · exact h
      · next title heq =>
        split
        · exact h
        · split
          · exact h
          · next h0 =>
            split
            · exact h
            · split
              · exact h
              · intro n hn
                rcases List.mem_append.1 hn with hn | hn
                · exact h n hn
                · rw [List.mem_singleton.1 hn]
                  rcases pyStrip_eq_some _ _ heq with ⟨s, _, rfl⟩
                  show strip (strip s) ≠ []
                  rw [strip_idem]
                  exact h0

theorem goodTitles_updApply (db : DB) (now note_id : Nat)
    (nt nc : Option Str) (h : goodTitles db)
    (hnt : ∀ t, nt = some t → strip t ≠ []) :
    goodTitles (updApply db now note_id nt nc).1 := by
  unfold updApply
  split
  · exact h
  · intro n hn
    rcases List.mem_map.1 hn with ⟨r, hr, rfl⟩
    split
    · cases nt with
      | none => exact h r hr
      | some t => exact hnt t rfl
    · exact h r hr

theorem goodTitles_updContent (db : DB) (now note_id : Nat) (data : JObj)
    (nt : Option Str) (h : goodTitles db)
    (hnt : ∀ t, nt = some t → strip t ≠ []) :
    goodTitles (updContent db now note_id data nt).1 := by
  unfold updContent
  split
  · exact goodTitles_updApply db now note_id nt none h hnt
  · split
    · exact h
    · next c heq => exact goodTitles_updApply db now note_id nt (some c) h hnt

theorem goodTitles_update (db : DB) (connOk : Bool) (now id : Nat)
    (body : Option JObj) (h : goodTitles db) :
    goodTitles (update_note db connOk now id body).1 := by
  unfold update_note
  split
  · exact h
  · split
    · exact h
    · split
      · exact h
      · split
        · exact h
        · split
          · exact h
          · split
            · exact goodTitles_updContent db now id _ none h
                (fun t ht => Option.noConfusion ht)
            · split
              · exact h
              · next t heq =>
                split
                · exact h
                · next h0 =>
                  refine goodTitles_updContent db now id _ (some t) h ?_
                  intro t' ht'
                  injection ht' with ht'
                  subst ht'
                  rcases pyStrip_eq_some _ _ heq with ⟨s, _, rfl⟩
                  rw [strip_idem]
                  exact h0

theorem goodTitles_delete (db : DB) (connOk : Bool) (now id : Nat)
    (h : goodTitles db) : goodTitles (delete_note db connOk now id).1 := by
  unfold delete_note
  split
  · exact h
  · split
    · exact h
    · intro n hn
      rcases List.mem_map.1 hn with ⟨r, hr, rfl⟩
      split
      · exact h r hr
      · exact h r hr

theorem goodTitles_restore (db : DB) (connOk : Bool) (now id : Nat)
    (h : goodTitles db) : goodTitles (restore_note db connOk now id).1 := by
  unfold restore_note
  split
  · exact h
  · split
    · exact h
    · intro n hn
      rcases List.mem_map.1 hn with ⟨r, hr, rfl⟩
      split
      · exact h r hr
      · exact h r hr

/-- Claim C8: every operation preserves the invariant that no persisted
title is empty or whitespace-only — create stores a trimmed non-empty
title, update only replaces a title by a trimmed non-empty one, and
delete/restore never touch titles. -/
theorem C8_titles_never_blank (db : DB) (connOk : Bool) (now id : Nat)
    (body : Option JObj) (h : goodTitles db) :
    goodTitles (create_note db connOk now body).1 ∧
    goodTitles (update_note db connOk now id body).1 ∧
    goodTitles (delete_note db connOk now id).1 ∧
    goodTitles (restore_note db connOk now id).1 :=
  ⟨goodTitles_create db connOk now body h,
   goodTitles_update db connOk now id body h,
   goodTitles_delete db connOk now id h,
   goodTitles_restore db connOk now id h⟩

/-- Witness for C8 on a concrete state and request. -/
theorem C8_witness :
    goodTitles (create_note ⟨[⟨1, ['a'], [], 0, 0, false⟩], 2⟩ true 3
      (some [("title", .jstr [' ', 'b', ' ']), ("content", .jstr [])])).1 ∧
    goodTitles (update_note ⟨[⟨1, ['a'], [], 0, 0, false⟩], 2⟩ true 3 1
      (some [("title", .jstr [' ', 'b', ' ']), ("content", .jstr [])])).1 ∧
    goodTitles (delete_note ⟨[⟨1, ['a'], [], 0, 0, false⟩], 2⟩ true 3 1).1 ∧
    goodTitles (restore_note ⟨[⟨1, ['a'], [], 0, 0, false⟩], 2⟩ true 3 1).1 :=
  C8_titles_never_blank ⟨[⟨1, ['a'], [], 0, 0, false⟩], 2⟩ true 3 1
    (some [("title", .jstr [' ', 'b', ' ']), ("content", .jstr [])])
    (by decide)

/-- Witness for the amended C3: a table with one active and one deleted
note. -/
theorem C3_amended_witness :
    (∀ n, n ∈ ([⟨1, ['a'], [], 5, 5, false⟩] : List Note) ↔
      n ∈ (⟨[⟨1, ['a'], [], 5, 5, false⟩, ⟨2, ['b'], [], 9, 9, true⟩],
            3⟩ : DB).rows ∧
      n.is_deleted = false) ∧
    sortedByCreatedDesc [⟨1, ['a'], [], 5, 5, false⟩] :=
  C3_amended_list_active
    ⟨[⟨1, ['a'], [], 5, 5, false⟩, ⟨2, ['b'], [], 9, 9, true⟩], 3⟩
    [⟨1, ['a'], [], 5, 5, false⟩]
    (by
      unfold get_all_notes
      rw [if_neg (by decide)]
      exact ⟨_, rfl, by decide, by decide⟩)

end CloudNotes
